import Mathlib

/-!
Verification of `examples/inference/bench_llama.py` (ColossalAI benchmark
harness for a tensor-parallel LLaMA inference engine).

The script is shallowly embedded: real-valued Python floats are modelled as
rationals (`ℚ`), Python ints as `ℤ`/`ℕ`, the `print` side effects of
`print_perf_stats` as an `Option PerfStats` record holding the three printed
numbers (`none` when nothing is printed), and the imperative body of
`run_llama_test` as the concrete sequence of observable events it performs.
-/

namespace BenchLlama

/-- The fields of the HuggingFace model config read by `print_perf_stats`.
`num_layers` is optional because the Python code reads it with
`getattr(config, "num_layers", config.num_hidden_layers)`. -/
structure ModelConfig where
  num_layers : Option ℕ
  num_hidden_layers : ℕ
  hidden_size : ℕ
deriving DecidableEq

/-- `getattr(config, "num_layers", config.num_hidden_layers)`. -/
def getNumLayers (config : ModelConfig) : ℕ :=
  match config.num_layers with
  | some n => n
  | none => config.num_hidden_layers

/-- The three numbers printed by `print_perf_stats`, in print order:
`avg * 1000` (ms), `1 / avg * num_parameters * num_bytes / 1e9` (GB/s),
`1 / avg * num_parameters * num_bytes * bs / 1e12` (TFlops/s). -/
structure PerfStats where
  avg_ms : ℚ
  bw_gbs : ℚ
  tflops : ℚ
deriving DecidableEq

/-- `print_perf_stats(latency_set, config, bs, warmup=3)`:
trims the first `warmup` samples, and if any remain, sorts them, takes the
mean, and prints latency, bandwidth and flops figures.  Python's stable
ascending `list.sort()` is modelled by `List.mergeSort`.  Returns the printed
numbers, or `none` when `count > 0` fails and nothing is printed. -/
def print_perf_stats (latency_set : List ℚ) (config : ModelConfig) (bs : ℕ)
    (warmup : ℕ := 3) : Option PerfStats :=
  let latency_set := latency_set.drop warmup
  let count := latency_set.length
  if count > 0 then
    let latency_set := latency_set.mergeSort (· ≤ ·)
    let avg : ℚ := latency_set.sum / count
    let num_layers := getNumLayers config
    let num_parameters := num_layers * config.hidden_size * config.hidden_size * 12
    let num_bytes : ℕ := 2
    some { avg_ms := avg * 1000
           bw_gbs := 1 / avg * num_parameters * num_bytes / 1e9
           tflops := 1 / avg * num_parameters * num_bytes * bs / 1e12 }
  else
    none

theorem sum_mergeSort (l : List ℚ) : (l.mergeSort (· ≤ ·)).sum = l.sum :=
  (l.mergeSort_perm (· ≤ ·)).sum_eq

theorem length_mergeSort (l : List ℚ) :
    (l.mergeSort (· ≤ ·)).length = l.length :=
  (l.mergeSort_perm (· ≤ ·)).length_eq

/-- **C1.** `print_perf_stats` discards exactly the first `warmup` samples in
their given order: when samples remain, the reported average (printed in ms,
i.e. scaled by 1000) is the sum of the remaining samples divided by their
count, and any two latency lists agreeing after the first `warmup` entries
produce identical printed statistics. -/
theorem print_perf_stats_trims_warmup (l l' : List ℚ) (config : ModelConfig)
    (bs warmup : ℕ) :
    (l.drop warmup ≠ [] →
      ∃ s, print_perf_stats l config bs warmup = some s ∧
        s.avg_ms = (l.drop warmup).sum / (l.drop warmup).length * 1000) ∧
    (l'.drop warmup = l.drop warmup →
      print_perf_stats l' config bs warmup = print_perf_stats l config bs warmup) := by
  constructor
  · intro h
    have hpos : 0 < (l.drop warmup).length := List.length_pos.mpr h
    simp only [print_perf_stats, if_pos hpos]
    exact ⟨_, rfl, by simp [sum_mergeSort, length_mergeSort]⟩
  · intro h
    unfold print_perf_stats
    rw [h]

/-- Witness for C1 at a concrete input: latency list `[9, 9, 9, 2, 4]`,
warmup 3, so the post-warmup samples are `[2, 4]` with mean `3`. -/
theorem print_perf_stats_trims_warmup_witness :
    (∃ s, print_perf_stats [9, 9, 9, 2, 4] ⟨none, 7, 11⟩ 16 3 = some s ∧
        s.avg_ms = 3000) ∧
    print_perf_stats [5, 5, 5, 2, 4] ⟨none, 7, 11⟩ 16 3 =
      print_perf_stats [9, 9, 9, 2, 4] ⟨none, 7, 11⟩ 16 3 := by
  obtain ⟨hex, hagree⟩ :=
    print_perf_stats_trims_warmup [9, 9, 9, 2, 4] [5, 5, 5, 2, 4] ⟨none, 7, 11⟩ 16 3
  obtain ⟨s, hs, havg⟩ := hex (by decide)
  refine ⟨⟨s, hs, ?_⟩, hagree (by decide)⟩
  rw [havg]; norm_num

/-- **C2.** The bandwidth figure printed by `print_perf_stats` (in GB/s)
equals `num_parameters × num_bytes / avg / 1e9` with
`num_parameters = num_layers × hidden_size² × 12` (the `num_layers` attribute
when present, else `num_hidden_layers`), `num_bytes = 2`, and `avg` the
trimmed mean of the post-warmup samples. -/
theorem print_perf_stats_bandwidth (l : List ℚ) (config : ModelConfig)
    (bs warmup : ℕ) (h : l.drop warmup ≠ []) :
    ∃ s, print_perf_stats l config bs warmup = some s ∧
      s.bw_gbs = (getNumLayers config : ℚ) * config.hidden_size *
        config.hidden_size * 12 * 2 /
        ((l.drop warmup).sum / (l.drop warmup).length) / 10 ^ 9 := by
  have hpos : 0 < (l.drop warmup).length := List.length_pos.mpr h
  simp only [print_perf_stats, if_pos hpos]
  refine ⟨_, rfl, ?_⟩
  simp only [sum_mergeSort, length_mergeSort]
  have h9 : (1e9 : ℚ) = 10 ^ 9 := by norm_num
  rw [h9]
  push_cast
  ring

/-- Witness for C2: post-warmup samples `[2, 4]`, mean `3`, config with
`num_layers` absent, `num_hidden_layers = 7`, `hidden_size = 11`. -/
theorem print_perf_stats_bandwidth_witness :
    ∃ s, print_perf_stats [9, 9, 9, 2, 4] ⟨none, 7, 11⟩ 16 3 = some s ∧
      s.bw_gbs = (7 : ℚ) * 11 * 11 * 12 * 2 / 3 / 10 ^ 9 := by
  obtain ⟨s, hs, hbw⟩ :=
    print_perf_stats_bandwidth [9, 9, 9, 2, 4] ⟨none, 7, 11⟩ 16 3 (by decide)
  refine ⟨s, hs, ?_⟩
  rw [hbw]
  norm_num [getNumLayers]

/-- Variant of `print_perf_stats` with the `latency_set.sort()` step removed,
following the claim that the sort changes no printed statistic; everything
else is copied verbatim from the source translation. -/
def print_perf_stats_nosort (latency_set : List ℚ) (config : ModelConfig)
    (bs : ℕ) (warmup : ℕ := 3) : Option PerfStats :=
  let latency_set := latency_set.drop warmup
  let count := latency_set.length
  if count > 0 then
    let avg : ℚ := latency_set.sum / count
    let num_layers := getNumLayers config
    let num_parameters := num_layers * config.hidden_size * config.hidden_size * 12
    let num_bytes : ℕ := 2
    some { avg_ms := avg * 1000
           bw_gbs := 1 / avg * num_parameters * num_bytes / 1e9
           tflops := 1 / avg * num_parameters * num_bytes * bs / 1e12 }
  else
    none

/-- **C3.** Sorting the post-warmup samples changes no printed statistic:
`print_perf_stats` agrees everywhere with the variant that skips the sort, so
the reported average is the arithmetic mean of the post-warmup samples in
their original order (the sum is invariant under the sorting permutation). -/
theorem print_perf_stats_sort_irrelevant (l : List ℚ) (config : ModelConfig)
    (bs warmup : ℕ) :
    print_perf_stats l config bs warmup =
      print_perf_stats_nosort l config bs warmup := by
  unfold print_perf_stats print_perf_stats_nosort
  by_cases hpos : 0 < (l.drop warmup).length
  · simp only [if_pos hpos, sum_mergeSort]
  · simp only [if_neg hpos]

/-- **C4.** The TFlops/s figure printed by `print_perf_stats` equals the
printed GB/s figure multiplied by the batch size and divided by 1000 (so it
retains the `num_bytes = 2` factor of the bandwidth formula). -/
theorem print_perf_stats_tflops (l : List ℚ) (config : ModelConfig)
    (bs warmup : ℕ) (h : l.drop warmup ≠ []) :
    ∃ s, print_perf_stats l config bs warmup = some s ∧
      s.tflops = s.bw_gbs * bs / 1000 := by
  have hpos : 0 < (l.drop warmup).length := List.length_pos.mpr h
  simp only [print_perf_stats, if_pos hpos]
  refine ⟨_, rfl, ?_⟩
  have h9 : (1e9 : ℚ) = 10 ^ 9 := by norm_num
  have h12 : (1e12 : ℚ) = 10 ^ 12 := by norm_num
  rw [h9, h12]
  ring

/-- Witness for C4 at the same concrete input as C2. -/
theorem print_perf_stats_tflops_witness :
    ∃ s, print_perf_stats [9, 9, 9, 2, 4] ⟨none, 7, 11⟩ 16 3 = some s ∧
      s.tflops = s.bw_gbs * 16 / 1000 :=
  print_perf_stats_tflops [9, 9, 9, 2, 4] ⟨none, 7, 11⟩ 16 3 (by decide)

/-- **C7.** When at most `warmup` samples are supplied, `print_perf_stats`
prints nothing; the division by `count` sits under the `count > 0` guard, so
whenever anything is printed the post-warmup sample count is positive and the
function never divides by zero. -/
theorem print_perf_stats_guarded (l : List ℚ) (config : ModelConfig)
    (bs warmup : ℕ) :
    (l.length ≤ warmup → print_perf_stats l config bs warmup = none) ∧
    (print_perf_stats l config bs warmup = none ∨
      0 < (l.drop warmup).length) := by
  constructor
  · intro h
    unfold print_perf_stats
    rw [if_neg]
    simp [List.drop_eq_nil_of_le h]
  · by_cases hpos : 0 < (l.drop warmup).length
    · exact Or.inr hpos
    · refine Or.inl ?_
      unfold print_perf_stats
      rw [if_neg hpos]

/-- Witness for C7: a two-element list under the default warmup of 3 prints
nothing. -/
theorem print_perf_stats_guarded_witness :
    ([1, 2] : List ℚ).length ≤ 3 ∧
      print_perf_stats [1, 2] ⟨none, 7, 11⟩ 16 3 = none :=
  ⟨by decide, (print_perf_stats_guarded [1, 2] ⟨none, 7, 11⟩ 16 3).1 (by decide)⟩

/-- Observable events performed by `run_llama_test`, in program order:
device barriers (`torch.cuda.synchronize()`), wall-clock reads
(`time.time()`), engine generation calls (`infer_engine.generate`), console
prints, latency appends (`times.append`), and the `print_perf_stats` call. -/
inductive Event
  | sync
  | timeRead
  | generate
  | printLine
  | appendLatency
  | printPerfStats
deriving DecidableEq

/-- One iteration of the timed loop in `run_llama_test`:
`synchronize; start = time.time(); generate; synchronize; end = time.time();
print(...); times.append(...)`. -/
def timedIteration : List Event :=
  [.sync, .timeRead, .generate, .sync, .timeRead, .printLine, .appendLatency]

/-- `iters = 10` in `run_llama_test`. -/
def iters : ℕ := 10

/-- The profiled section: `synchronize; generate; synchronize` inside the
profiler context, followed by printing the operator table. -/
def profiledSection : List Event :=
  [.sync, .generate, .sync, .printLine]

/-- The full event trace of `run_llama_test`: ten timed iterations, the
`print("outputs, ", ...)` line, the `print_perf_stats` call, then the
profiled generation. -/
def run_llama_test_trace : List Event :=
  (List.replicate iters timedIteration).flatten ++
    [.printLine, .printPerfStats] ++ profiledSection

/-- **C5.** `run_llama_test` performs a fixed number of generation calls:
exactly 10 in the timed loop (one latency append per iteration) plus exactly
one under the profiler, for 11 in total. -/
theorem run_llama_test_generate_count :
    (List.replicate iters timedIteration).flatten.count Event.generate = 10 ∧
    timedIteration.count Event.generate = 1 ∧
    timedIteration.count Event.appendLatency = 1 ∧
    profiledSection.count Event.generate = 1 ∧
    run_llama_test_trace.count Event.generate = 11 ∧
    run_llama_test_trace.count Event.appendLatency = 10 := by decide

/-- The latency sample appended by each timed iteration:
`(end - start) / (out_len - max_input_len)`, with `out_len` the second
dimension of the generate output.  Python raises `ZeroDivisionError` when the
integer denominator `out_len - max_input_len` is zero; the raise is modelled
by `none`. -/
def latency_sample (start finish : ℚ) (out_len max_input_len : ℤ) : Option ℚ :=
  if out_len - max_input_len = 0 then none
  else some ((finish - start) / ((out_len : ℚ) - (max_input_len : ℚ)))

/-- **C6.** The appended sample is the elapsed wall-clock time divided by the
number of generated tokens `out_len − max_input_len`, and the division raises
(yields `none`) exactly when the output length equals the input length. -/
theorem latency_sample_spec (start finish : ℚ) (out_len max_input_len : ℤ) :
    (out_len ≠ max_input_len →
      latency_sample start finish out_len max_input_len =
        some ((finish - start) / ((out_len : ℚ) - (max_input_len : ℚ)))) ∧
    (out_len = max_input_len →
      latency_sample start finish out_len max_input_len = none) := by
  constructor
  · intro h
    rw [latency_sample, if_neg (sub_ne_zero.mpr h)]
  · intro h
    rw [latency_sample, if_pos (by rw [h, sub_self])]

/-- Witness for C6: elapsed time 4 over 10 generated tokens gives 2/5; zero
generated tokens raises. -/
theorem latency_sample_spec_witness :
    latency_sample 1 5 30 20 = some ((5 - 1) / ((30 : ℚ) - 20)) ∧
    latency_sample 1 5 20 20 = none :=
  ⟨(latency_sample_spec 1 5 30 20).1 (by decide),
   (latency_sample_spec 1 5 20 20).2 rfl⟩

/-- **C9 counterexample.** As stated, the claim that every generate call is
immediately preceded and immediately followed by a synchronize is false: the
event immediately before each timed-loop generate is the `start = time.time()`
read, not the barrier (and the `end = time.time()` read falls after the
closing barrier, outside the pair). -/
theorem generate_sync_immediate_counterexample :
    ¬ ∀ i : ℕ, i < run_llama_test_trace.length →
        run_llama_test_trace.get? i = some Event.generate →
        run_llama_test_trace.get? (i - 1) = some Event.sync ∧
        run_llama_test_trace.get? (i + 1) = some Event.sync := by decide

/-- **C9 amended.** Every generate call is immediately followed by a
synchronize; before each generate stands a synchronize, either immediately
(the profiled call) or with exactly the start-time read in between (the timed
loop); and every wall-clock read comes immediately after a barrier — so the
start read falls inside the barrier pair and the end read falls immediately
after the closing barrier, outside it. -/
theorem generate_sync_barriers :
    (∀ i : ℕ, i < run_llama_test_trace.length →
      run_llama_test_trace.get? i = some Event.generate →
      run_llama_test_trace.get? (i + 1) = some Event.sync ∧
        (run_llama_test_trace.get? (i - 1) = some Event.sync ∨
          run_llama_test_trace.get? (i - 1) = some Event.timeRead ∧
          run_llama_test_trace.get? (i - 2) = some Event.sync)) ∧
    (∀ i : ℕ, i < run_llama_test_trace.length →
      run_llama_test_trace.get? i = some Event.timeRead →
      run_llama_test_trace.get? (i - 1) = some Event.sync) := by decide

/-- Witness for C9 (amended) at the first timed-loop generate, index 2. -/
theorem generate_sync_barriers_witness :
    run_llama_test_trace.get? (2 + 1) = some Event.sync ∧
      (run_llama_test_trace.get? (2 - 1) = some Event.sync ∨
        run_llama_test_trace.get? (2 - 1) = some Event.timeRead ∧
        run_llama_test_trace.get? (2 - 2) = some Event.sync) :=
  generate_sync_barriers.1 2 (by decide) (by decide)

/-- The value type of an `add_argument` call (`type=str` or `type=int`). -/
inductive ArgKind
  | str
  | int
deriving DecidableEq

/-- One `parser.add_argument(...)` call: its flag spellings, value kind,
`required` setting (argparse defaults to `False` when omitted), and integer
default when one is given. -/
structure ArgSpec where
  flags : List String
  kind : ArgKind
  required : Bool
  default : Option ℤ
deriving DecidableEq

/-- The five `parser.add_argument` calls in the `__main__` block, in source
order. -/
def bench_llama_args : List ArgSpec :=
  [⟨["-p", "--path"], .str, true, none⟩,
   ⟨["-tp", "--tp_size"], .int, false, some 1⟩,
   ⟨["-b", "--batch_size"], .int, false, some 16⟩,
   ⟨["--input_len"], .int, false, some 1024⟩,
   ⟨["--output_len"], .int, false, some 128⟩]

/-- argparse's required-argument check in `parse_args`: parsing the argument
vector fails exactly when some argument declared `required=True` appears
under none of its flag spellings.  (Only flag presence is modelled, not value
conversion.) -/
def parse_args_ok (argv : List String) : Bool :=
  bench_llama_args.all fun a => !a.required || a.flags.any (argv.contains ·)

/-- **C8.** The CLI declares exactly five flags; any argument vector lacking
both `-p` and `--path` fails to parse, while each of the other four flags may
be omitted (alone or all together) and parsing still succeeds; those four are
integer-typed with defaults 1, 16, 1024 and 128. -/
theorem cli_flags_spec :
    bench_llama_args.length = 5 ∧
    (∀ argv : List String, "-p" ∉ argv → "--path" ∉ argv →
      parse_args_ok argv = false) ∧
    parse_args_ok ["-p"] = true ∧
    parse_args_ok ["-p", "-tp", "-b", "--input_len"] = true ∧
    parse_args_ok ["-p", "-tp", "-b", "--output_len"] = true ∧
    parse_args_ok ["-p", "-tp", "--input_len", "--output_len"] = true ∧
    parse_args_ok ["-p", "-b", "--input_len", "--output_len"] = true ∧
    (bench_llama_args.all fun a =>
      a.flags.contains "-p" || (a.kind == ArgKind.int && a.default.isSome
        && !a.required)) = true := by
  refine ⟨rfl, ?_, by decide, by decide, by decide, by decide, by decide, by decide⟩
  intro argv h1 h2
  simp [parse_args_ok, bench_llama_args, h1, h2]

/-- Witness for C8: the empty argument vector lacks the model path and fails
to parse. -/
theorem cli_flags_spec_witness : parse_args_ok [] = false :=
  cli_flags_spec.2.1 [] (by simp) (by simp)

/-- The functions defined in the file, with their decorator lists and the
number of `try/except` statements in their bodies, read off the source. -/
structure PyFunction where
  name : String
  decorators : List String
  tryExceptCount : ℕ
deriving DecidableEq

/-- All `def`s of `bench_llama.py`, in source order.  `test_llama` carries
`@rerun_if_address_is_in_use()` and `@clear_cache_before_run()`; no body
contains a `try/except`. -/
def bench_llama_functions : List PyFunction :=
  [⟨"print_perf_stats", [], 0⟩,
   ⟨"run_llama_test", [], 0⟩,
   ⟨"check_llama", [], 0⟩,
   ⟨"test_llama", ["rerun_if_address_is_in_use", "clear_cache_before_run"], 0⟩]

/-- **C10.** The only error handling in the file is the external
`rerun_if_address_is_in_use` decorator, and it wraps `test_llama` alone; no
function body contains a `try/except`, so every other failure propagates
uncaught. -/
theorem error_handling_only_rerun_decorator :
    (bench_llama_functions.all fun f => f.tryExceptCount == 0) = true ∧
    (bench_llama_functions.all fun f =>
      !(f.decorators.contains "rerun_if_address_is_in_use") ||
        f.name == "test_llama") = true ∧
    (bench_llama_functions.any fun f =>
      f.name == "test_llama" &&
        f.decorators.contains "rerun_if_address_is_in_use") = true := by
  decide

end BenchLlama
